import Mathlib

/-!
Verification of the encryption-session state machine of
`src/archinstall/lib/luks.py` (class `luks2`), shallowly embedded in Lean.

Modelling conventions, used throughout:

- Python byte strings are `List Nat` (one entry per byte); the UTF-8
  conversion `bytes(password, UTF-8)` on an already-resolved credential is
  the identity on this representation.
- `Optional[X]` is `Option X`; Python truthiness of an optional string or
  byte string (`if not password: ...`) is `truthyS` / `truthyB` below:
  `None` and the empty value are falsy.
- The filesystem is an oracle `fs : String -> Option Bytes`: `fs p = none`
  models `pathlib.Path(p).exists() == False`, `fs p = some c` models an
  existing file with contents `c`.
- `os.path.islink` is an oracle `islink : String -> Bool`.
- One external process run (`SysCommandWorker`) is a `SubprocessRun`: the
  recorded exit code, and for each iteration of the caller's
  `while worker.is_alive()` polling loop, whether the expected prompt
  substring was contained in the output buffer collected so far at that
  poll (`SysCommandWorker.__contains__`).
- Spawned external commands are recorded as a `List Cmd`, one constructor
  per command template of the source, holding the interpolated values.
- Exceptions (`AssertionError`, `DiskError`, `OSError`) are `Except`
  results with a `LuksError` value.
-/

/-- A byte string, one `Nat` per byte. -/
abbrev Bytes := List Nat

/-- Python truthiness of an optional byte string: `None` and `b""` are falsy. -/
def truthyB : Option Bytes → Bool
  | none => false
  | some bs => !bs.isEmpty

/-- Python truthiness of an optional string: `None` and the empty string are falsy. -/
def truthyS : Option String → Bool
  | none => false
  | some s => !(s.length == 0)

/-- Byte value of a carriage return. -/
def crByte : Nat := 13

/-- Byte value of a line feed. -/
def lfByte : Nat := 10

/-- `bytes.rstrip(b"\r\n")` from lines 44, 83 and 179 of luks.py: drop every
trailing carriage-return or line-feed byte. -/
def rstripCRLF (bs : Bytes) : Bytes :=
  (bs.reverse.dropWhile (fun b => b == crByte || b == lfByte)).reverse

/-- The slash character, `/`. -/
def slashChar : Char := Char.ofNat 47

/-- `"/" in mountpoint` from line 184 of luks.py. -/
def slashIn (s : String) : Bool := s.data.contains slashChar

/-- `os.path.basename` as called on line 185 of luks.py: the part of the
path after the last slash (empty when the path ends in a slash). -/
def osPathBasename (s : String) : String :=
  String.mk (s.data.foldl (fun acc c => if c == slashChar then [] else acc ++ [c]) [])

/-- A block device, identified by its path (`Partition` of `.disk`; only its
`path` attribute and its `partprobe` / `unmount` methods are used by luks.py). -/
structure Partition where
  path : String
  deriving DecidableEq

/-- Modelled from the spec: `MapperDev` is imported from `.disk` and is not
part of the given sources. Per the spec (sections 3 and 6) a MappedDevice is
the relation from a mapping name to the conventional decrypted-device path
derived from it, `/dev/mapper/` followed by the name. -/
structure MapperDev where
  mountpoint : String
  deriving DecidableEq

/-- The fixed system path prefix for decrypted mappings. -/
def devMapperDir : String := "/dev/mapper/"

/-- Modelled from the spec: the conventional path of a mapped device,
`/dev/mapper/` followed by the mapping name (spec sections 3 and 6; used by
luks.py on lines 199 and 208). -/
def MapperDev.path (d : MapperDev) : String := devMapperDir ++ d.mountpoint

/-- The error taxonomy of luks.py, by raise site. -/
inductive LuksError where
  /-- `AssertionError` from lines 40, 76, 79, 172 and 175: neither a
  password nor a usable key file. -/
  | missingCredential
  /-- `DiskError` from lines 149, 197, 219 and 235, carrying the device
  path it names (the captured process transcript is not modelled). -/
  | diskError (device : String)
  /-- `OSError` from line 223: the key file to import is missing. -/
  | osError (path : String)
  deriving DecidableEq

/-- One external command spawn, one constructor per command template of
luks.py, with the interpolated values as fields. -/
inductive Cmd where
  /-- `partition.partprobe()` (lines 88 and 124). -/
  | partprobe (path : String)
  /-- `partition.unmount()` (line 120). -/
  | umountPartition (path : String)
  /-- `lsblk --fs -J` followed by the device path (line 126). -/
  | lsblkFs (path : String)
  /-- `umount -R` followed by the child mountpoint (line 134). -/
  | umountR (mountpoint : String)
  /-- `cryptsetup close` followed by the child name (line 138). -/
  | cryptClose (name : String)
  /-- The `cryptsetup ... luksFormat` command line of lines 91 to 103:
  `/usr/bin/cryptsetup --batch-mode --verbose --type luks2 --pbkdf argon2id
  --hash`, the hash type, `--key-size`, the key size, `--iter-time`, the
  iteration time, `--use-urandom luksFormat`, the device path. -/
  | luksFormat (path : String) (hashType : String) (keySize iterTime : Int)
  /-- `/usr/bin/cryptsetup open`, the device path, the mapping name,
  `--type luks2` (line 188). -/
  | cryptOpen (devPath : String) (mapping : String)
  /-- `/usr/bin/cryptsetup close`, the mapping path (line 211). -/
  | cryptCloseFull (mountpoint : String)
  /-- `/usr/bin/cryptsetup -q -v luksErase`, the path (line 218). -/
  | luksErase (path : String)
  /-- `/usr/bin/cryptsetup -q -v luksAddKey`, the device path, the new key
  file path (line 226), with `LC_ALL=C` pinned in the environment. -/
  | luksAddKey (devPath : String) (keyPath : String)
  deriving DecidableEq

/-- The session state: the `luks2` instance attributes set by `__init__`
(lines 19 to 36). The untyped `args` / `kwargs` varargs and the constant
`filesystem` attribute are omitted; `mapdev` starts as `None`. -/
structure luks2 where
  password : Option Bytes
  key_file : Option String
  partition : Partition
  mountpoint : String
  auto_unmount : Bool
  mapdev : Option MapperDev
  deriving DecidableEq

/-- `pathlib.Path(key_file).exists()` under the filesystem oracle. -/
def keyFileExists (kf : Option String) (fs : String → Option Bytes) : Bool :=
  match kf with
  | none => false
  | some p => (fs p).isSome

/-- The credential-resolution prologue shared verbatim by `encrypt`
(lines 70 to 86) and `unlock` (lines 166 to 182) of luks.py:

- a falsy explicit `password` argument falls back to `self.password`;
- a falsy explicit `key_file` argument falls back to `self.key_file`;
- `AssertionError` when both resolved values are falsy
  (`if not any([password, key_file])`);
- `AssertionError` when the password is `None` and the key file is `None`
  or does not exist;
- a `None` password is then read from the key file, with trailing CR and
  LF bytes stripped;
- a non-bytes password is encoded to bytes (identity here).

`none` models the raised `AssertionError`. -/
def resolveCredential (pwArg instPw : Option Bytes) (kfArg instKf : Option String)
    (fs : String → Option Bytes) : Option Bytes :=
  let password := if truthyB pwArg then pwArg else instPw
  let key_file := if truthyS kfArg then kfArg else instKf
  if !(truthyB password || truthyS key_file) then none
  else if password.isNone && (key_file.isNone || !(keyFileExists key_file fs)) then none
  else match password with
    | some p => some p
    | none => some (rstripCRLF ((key_file.bind fs).getD []))

/-- One run of an external interactive command, as observed by the caller:
for each iteration of the `while worker.is_alive()` loop, whether the
expected prompt substring was contained in the output buffer at that poll,
and the exit code read after the loop. -/
structure SubprocessRun where
  polls : List Bool
  exitCode : Int
  deriving DecidableEq

/-- Writes performed by the prompt-detection loop of lines 109 to 115 of
luks.py (also lines 191 to 194 and 229 to 232), starting from a given state
of the `pw_given` latch: the loop writes the credential when the prompt is
found and the latch is clear, then sets the latch. -/
def promptLoopWritesAux : Bool → List Bool → Nat
  | _, [] => 0
  | pwGiven, found :: rest =>
    if found && !pwGiven then 1 + promptLoopWritesAux true rest
    else promptLoopWritesAux pwGiven rest

/-- Number of credential writes of one full prompt-detection polling loop
(`pw_given` starts `False`, line 108 / 190 / 228 of luks.py). -/
def promptLoopWrites (polls : List Bool) : Nat := promptLoopWritesAux false polls

/-- Index of the poll iteration at which the prompt-detection loop writes
the credential: the first iteration whose containment check succeeds. -/
def promptLoopWriteIdx : List Bool → Option Nat
  | [] => none
  | found :: rest =>
    if found then some 0 else (promptLoopWriteIdx rest).map (fun i => i + 1)

/-- Number of credential writes of the retried-format loop of lines 143 to
147 of luks.py: `while cryptworker.is_alive(): if not pw_given: write;
pw_given = True` — it writes on the first iteration, with no prompt check. -/
def retryLoopWrites (polls : List Bool) : Nat :=
  match polls with
  | [] => 0
  | _ :: _ => 1

/-- Index of the poll iteration at which the retried-format loop of lines
143 to 147 writes the credential: always the first iteration, whatever the
prompt containment results are. -/
def retryLoopWriteIdx (polls : List Bool) : Option Nat :=
  match polls with
  | [] => none
  | _ :: _ => some 0

/-- The expected passphrase prompt for a device, `Enter passphrase for `
followed by the device path (lines 111 and 192 of luks.py). -/
def passphrasePrompt (p : Partition) : String :=
  "Enter passphrase for " ++ p.path

/-- The fixed prompt detected by `add_key` (line 230 of luks.py). -/
def addKeyPrompt : String := "Enter any existing passphrase"

/-- The outcome of one session operation: its returned value or raised
error, the external commands spawned in order, the number of credential
writes performed by its interactive polling loops, and the session state
after the call. -/
structure OpOutcome (α : Type) where
  result : Except LuksError α
  cmds : List Cmd
  writes : Nat
  state : luks2

/-- The per-child teardown commands of the busy-recovery of lines 129 to
138 of luks.py: for each child of the lsblk device tree, `umount -R` its
mountpoint when `child.get("mountpoint", None)` is truthy, then
unconditionally `cryptsetup close` the child by name. -/
structure Child where
  name : String
  mountpoint : Option String
  deriving DecidableEq

/-- The commands issued per child during busy-recovery (lines 130 to 138). -/
def childTeardownCmds (c : Child) : List Cmd :=
  (if truthyS c.mountpoint then [Cmd.umountR (c.mountpoint.getD "")] else [])
    ++ [Cmd.cryptClose c.name]

/-- The full command sequence of the busy-recovery path of lines 120 to
138 of luks.py: unmount the partition, partprobe it, query the device tree
with lsblk, then tear down each child. -/
def recoveryCmds (p : Partition) (children : List Child) : List Cmd :=
  [Cmd.umountPartition p.path, Cmd.partprobe p.path, Cmd.lsblkFs p.path]
    ++ children.flatMap childTeardownCmds

/-- The environment one `encrypt` call observes: the first format run, the
children reported by lsblk if recovery happens, and the retried format run. -/
structure EncryptBehavior where
  run1 : SubprocessRun
  children : List Child
  run2 : SubprocessRun
  deriving DecidableEq

/-- The `cryptsetup ... luksFormat` command of lines 91 to 103. -/
def luksFormatCmd (p : Partition) (hashType : String) (keySize iterTime : Int) : Cmd :=
  Cmd.luksFormat p.path hashType keySize iterTime

/-- `luks2.encrypt` (lines 61 to 151 of luks.py). After credential
resolution (which raises before anything is spawned), it partprobes the
device, runs the format command driving the prompt-injection loop, and
dispatches on the first exit code:

- 256 (device busy): unmount, partprobe, query children with lsblk, tear
  each child down, re-run the format command with the immediate-write loop
  of lines 143 to 147 — and then fall through to `return True` without
  ever reading the retried run exit code (`beh.run2.exitCode` is unused);
- any other positive code: raise `DiskError`;
- otherwise: `return True`. -/
def luks2.encrypt (self : luks2) (partition : Partition)
    (pwArg : Option Bytes) (kfArg : Option String)
    (hashType : String) (keySize iterTime : Int)
    (fs : String → Option Bytes) (beh : EncryptBehavior) : OpOutcome Bool :=
  match resolveCredential pwArg self.password kfArg self.key_file fs with
  | none => ⟨Except.error LuksError.missingCredential, [], 0, self⟩
  | some _password =>
    let preCmds := [Cmd.partprobe partition.path,
      luksFormatCmd partition hashType keySize iterTime]
    let writes1 := promptLoopWrites beh.run1.polls
    if beh.run1.exitCode == 256 then
      ⟨Except.ok true,
        preCmds ++ recoveryCmds partition beh.children
          ++ [luksFormatCmd partition hashType keySize iterTime],
        writes1 + retryLoopWrites beh.run2.polls,
        self⟩
    else if beh.run1.exitCode > 0 then
      ⟨Except.error (LuksError.diskError partition.path), preCmds, writes1, self⟩
    else
      ⟨Except.ok true, preCmds, writes1, self⟩

/-- `luks2.unlock` (lines 153 to 204 of luks.py). After the shared
credential resolution, line 185 computes `os.path.basename(mountpoint)`
when the name contains a slash but discards the result (kept here as the
unused `_sanitized`), spawns the open command with the original name,
drives the prompt-injection loop, and then:

- non-zero exit: raise `DiskError`;
- zero exit and `/dev/mapper/` name is a symlink: record `self.mapdev` and
  return the `MapperDev`;
- zero exit, no symlink: fall off the end, returning `None`. -/
def luks2.unlock (self : luks2) (partition : Partition) (mountpoint : String)
    (pwArg : Option Bytes) (kfArg : Option String)
    (fs : String → Option Bytes) (islink : String → Bool)
    (run : SubprocessRun) : OpOutcome (Option MapperDev) :=
  match resolveCredential pwArg self.password kfArg self.key_file fs with
  | none => ⟨Except.error LuksError.missingCredential, [], 0, self⟩
  | some _password =>
    let _sanitized := if slashIn mountpoint then osPathBasename mountpoint else mountpoint
    let cmds := [Cmd.cryptOpen partition.path mountpoint]
    let writes := promptLoopWrites run.polls
    if !(run.exitCode == 0) then
      ⟨Except.error (LuksError.diskError partition.path), cmds, writes, self⟩
    else if islink (devMapperDir ++ mountpoint) then
      ⟨Except.ok (some ⟨mountpoint⟩), cmds, writes,
        { self with mapdev := some ⟨mountpoint⟩ }⟩
    else
      ⟨Except.ok none, cmds, writes, self⟩

/-- The outcome of `luks2.close`: the returned boolean, the spawned
commands, and the session state after the call. -/
structure CloseOutcome where
  result : Bool
  cmds : List Cmd
  state : luks2
  deriving DecidableEq

/-- `luks2.close` (lines 206 to 215 of luks.py): a falsy `mountpoint`
argument is replaced by `self.mapdev.path` when `self.mapdev` is set; a
truthy resulting mountpoint is closed with cryptsetup and the call returns
whether the path is no longer a symlink; otherwise it returns `False`
without spawning anything. `self.mapdev` is never modified. -/
def luks2.close (self : luks2) (mountpointArg : Option String)
    (islink : String → Bool) : CloseOutcome :=
  let mountpoint :=
    if !(truthyS mountpointArg) && self.mapdev.isSome then self.mapdev.map MapperDev.path
    else mountpointArg
  if truthyS mountpoint then
    ⟨!(islink (mountpoint.getD "")), [Cmd.cryptCloseFull (mountpoint.getD "")], self⟩
  else
    ⟨false, [], self⟩

/-- The credential resolution of `__enter__` (lines 39 to 47 of luks.py):
`AssertionError` when `self.password is None` and the key file is `None`
or does not exist; otherwise a `None` password is read from the key file
with trailing CR and LF stripped, and a non-bytes password is encoded.
Unlike `encrypt` and `unlock` this uses `is None` tests, not truthiness. -/
def enterResolve (self : luks2) (fs : String → Option Bytes) : Option Bytes :=
  if self.password.isNone && (self.key_file.isNone || !(keyFileExists self.key_file fs))
  then none
  else some (match self.password with
    | some p => p
    | none => rstripCRLF ((self.key_file.bind fs).getD []))

/-- `luks2.__enter__` (lines 38 to 49 of luks.py): resolve the credential,
overwrite `self.password` with the resolved bytes, then call
`self.unlock(self.partition, self.mountpoint, self.password)`. -/
def luks2.enter (self : luks2) (fs : String → Option Bytes)
    (islink : String → Bool) (run : SubprocessRun) : OpOutcome (Option MapperDev) :=
  match enterResolve self fs with
  | none => ⟨Except.error LuksError.missingCredential, [], 0, self⟩
  | some pw =>
    let self1 := { self with password := some pw }
    luks2.unlock self1 self1.partition self1.mountpoint (some pw) none fs islink run

/-- `luks2.add_key` (lines 221 to 237 of luks.py): `OSError` when the new
key file path does not exist, otherwise spawn the luksAddKey command with
the existing-passphrase prompt loop and raise `DiskError` on non-zero
exit. `keyPathExists` models `path.exists()`. -/
def luks2.add_key (self : luks2) (keyPathExists : Bool) (keyPath : String)
    (run : SubprocessRun) : OpOutcome Bool :=
  if !keyPathExists then
    ⟨Except.error (LuksError.osError keyPath), [], 0, self⟩
  else
    let cmds := [Cmd.luksAddKey self.partition.path keyPath]
    let writes := promptLoopWrites run.polls
    if !(run.exitCode == 0) then
      ⟨Except.error (LuksError.diskError self.partition.path), cmds, writes, self⟩
    else
      ⟨Except.ok true, cmds, writes, self⟩

/-- `luks2.format` (lines 217 to 219 of luks.py): spawn luksErase and
raise `DiskError` on non-zero exit. -/
def luks2.format (_self : luks2) (path : String) (exitCode : Int) :
    Except LuksError Unit × List Cmd :=
  if !(exitCode == 0) then (Except.error (LuksError.diskError path), [Cmd.luksErase path])
  else (Except.ok (), [Cmd.luksErase path])

theorem promptLoopWritesAux_latched (polls : List Bool) :
    promptLoopWritesAux true polls = 0 := by
  induction polls with
  | nil => rfl
  | cons f rest ih => simp [promptLoopWritesAux, ih]

theorem promptLoopWrites_le_one (polls : List Bool) : promptLoopWrites polls ≤ 1 := by
  unfold promptLoopWrites
  induction polls with
  | nil => simp [promptLoopWritesAux]
  | cons f rest ih =>
    by_cases hf : f
    · simp [promptLoopWritesAux, hf, promptLoopWritesAux_latched]
    · simpa [promptLoopWritesAux, hf] using ih

theorem retryLoopWrites_le_one (polls : List Bool) : retryLoopWrites polls ≤ 1 := by
  cases polls <;> simp [retryLoopWrites]

theorem unlock_writes_le_one (self : luks2) (p : Partition) (mp : String)
    (pwArg : Option Bytes) (kfArg : Option String) (fs : String → Option Bytes)
    (il : String → Bool) (run : SubprocessRun) :
    (luks2.unlock self p mp pwArg kfArg fs il run).writes ≤ 1 := by
  unfold luks2.unlock
  cases resolveCredential pwArg self.password kfArg self.key_file fs with
  | none => exact Nat.zero_le 1
  | some pw =>
    by_cases h1 : run.exitCode == 0 <;>
      by_cases h2 : il (devMapperDir ++ mp) <;>
        simp [h1, h2, promptLoopWrites_le_one]

theorem add_key_writes_le_one (self : luks2) (ke : Bool) (kp : String)
    (run : SubprocessRun) :
    (luks2.add_key self ke kp run).writes ≤ 1 := by
  unfold luks2.add_key
  by_cases h1 : ke <;> by_cases h2 : run.exitCode == 0 <;>
    simp [h1, h2, promptLoopWrites_le_one]

/-- C2: during any single polling loop of `encrypt`, `unlock` or `add_key`,
the credential bytes are written to the subprocess at most once, whatever
the per-poll prompt-containment results are (in particular even when the
prompt substring is present in the buffer on every poll after the first
detection): the `pw_given` latch is set on the first write and never reset
within the run. This covers the first-run loop shape (lines 108 to 115,
190 to 194, 228 to 232 of luks.py) and the retried-format loop shape
(lines 143 to 147), and the write counts of the `unlock` and `add_key`
operations built from them. -/
theorem single_write_per_polling_loop :
    ∀ polls : List Bool,
      promptLoopWrites polls ≤ 1 ∧ retryLoopWrites polls ≤ 1
      ∧ ∀ (self : luks2) (p : Partition) (mp : String) (pwArg : Option Bytes)
          (kfArg : Option String) (fs : String → Option Bytes)
          (il : String → Bool) (ec : Int) (ke : Bool) (kp : String),
          (luks2.unlock self p mp pwArg kfArg fs il ⟨polls, ec⟩).writes ≤ 1
          ∧ (luks2.add_key self ke kp ⟨polls, ec⟩).writes ≤ 1 := by
  intro polls
  refine ⟨promptLoopWrites_le_one polls, retryLoopWrites_le_one polls, ?_⟩
  intro self p mp pwArg kfArg fs il ec ke kp
  exact ⟨unlock_writes_le_one self p mp pwArg kfArg fs il ⟨polls, ec⟩,
    add_key_writes_le_one self ke kp ⟨polls, ec⟩⟩

/-- C1: the code at the failing input. The first `luksFormat` run exits
with the device-busy code 256, recovery runs, and the retried run also
exits 256 — yet `encrypt` returns success: lines 140 to 151 of luks.py
never read the retried worker exit code and fall through to `return True`. -/
theorem encrypt_retry_failure_returns_success :
    (luks2.encrypt ⟨some [115], none, ⟨"/dev/sda1"⟩, "cryptroot", false, none⟩
        ⟨"/dev/sda1"⟩ (some [115]) none "sha512" 512 10000 (fun _ => none)
        ⟨⟨[true], 256⟩, [], ⟨[true], 256⟩⟩).result = Except.ok true := rfl

/-- C3 counterexample: in a retried run with a single poll iteration at
which the prompt substring has not appeared in the output, the
retried-format loop of lines 143 to 147 of luks.py nevertheless writes the
credential (at poll index 0), so the retried run does not follow the
first-run protocol of writing only after prompt detection. -/
theorem retry_write_without_prompt_cex :
    retryLoopWriteIdx [false] = some 0 ∧ List.getD [false] 0 true = false :=
  ⟨rfl, rfl⟩

/-- C3 amended: the retried `luksFormat` run after busy-recovery uses a
one-shot latch but does not wait for the prompt — it writes the credential
exactly once, on the first poll iteration, whatever the prompt containment
results are; the first run, by contrast, writes only at a poll where the
prompt substring was detected. -/
theorem retry_run_writes_immediately :
    ∀ polls : List Bool,
      (polls ≠ [] → retryLoopWriteIdx polls = some 0 ∧ retryLoopWrites polls = 1)
      ∧ (∀ i, promptLoopWriteIdx polls = some i → List.getD polls i false = true) := by
  intro polls
  constructor
  · intro h
    cases polls with
    | nil => exact absurd rfl h
    | cons a l => exact ⟨rfl, rfl⟩
  · intro i hi
    induction polls generalizing i with
    | nil => simp [promptLoopWriteIdx] at hi
    | cons f rest ih =>
      by_cases hf : f
      · simp [promptLoopWriteIdx, hf] at hi
        simp [← hi, hf]
      · simp [promptLoopWriteIdx, hf] at hi
        obtain ⟨j, hj, rfl⟩ := hi
        simpa using ih j hj

theorem retry_run_writes_immediately_witness :
    (retryLoopWriteIdx [false, true] = some 0 ∧ retryLoopWrites [false, true] = 1)
    ∧ List.getD [false, true] 1 false = true :=
  ⟨(retry_run_writes_immediately [false, true]).1 (by decide),
   (retry_run_writes_immediately [false, true]).2 1 rfl⟩

/-- C4: the code at the failing input. `unlock` called with the mapping
name `luks/dev` (which contains a path separator) spawns the open command
with the unsanitized name and reports no error: line 185 of luks.py
computes `os.path.basename(mountpoint)` but discards the result, so the
sanitized name `dev` is never used. -/
theorem unlock_mapping_name_passed_unsanitized :
    (luks2.unlock ⟨none, none, ⟨"/dev/sda1"⟩, "cryptroot", false, none⟩
        ⟨"/dev/sda1"⟩ "luks/dev" (some [115]) none (fun _ => none) (fun _ => false)
        ⟨[true], 0⟩).cmds = [Cmd.cryptOpen "/dev/sda1" "luks/dev"]
    ∧ (luks2.unlock ⟨none, none, ⟨"/dev/sda1"⟩, "cryptroot", false, none⟩
        ⟨"/dev/sda1"⟩ "luks/dev" (some [115]) none (fun _ => none) (fun _ => false)
        ⟨[true], 0⟩).result = Except.ok none
    ∧ slashIn "luks/dev" = true
    ∧ osPathBasename "luks/dev" = "dev" := by
  refine ⟨rfl, rfl, ?_, ?_⟩ <;> decide

theorem mapperDev_path_length (d : MapperDev) :
    (MapperDev.path d).length = 12 + d.mountpoint.length := by
  have h12 : devMapperDir.length = 12 := rfl
  simp [MapperDev.path, String.length_append, h12]

theorem mapperDev_path_truthy (d : MapperDev) :
    truthyS (some (MapperDev.path d)) = true := by
  simp [truthyS, mapperDev_path_length]

/-- C5 counterexample: a session with a recorded MappedDevice, closed with
no argument, still has `mapdev` set afterwards, and a second no-argument
close issues the close command again instead of taking the no-op branch —
lines 206 to 215 of luks.py never clear `self.mapdev`. -/
theorem close_retains_mapdev_cex :
    (luks2.close ⟨some [115], none, ⟨"/dev/sda1"⟩, "cryptroot", false,
        some ⟨"cryptroot"⟩⟩ none (fun _ => false)).state.mapdev ≠ none
    ∧ (luks2.close ((luks2.close ⟨some [115], none, ⟨"/dev/sda1"⟩, "cryptroot", false,
        some ⟨"cryptroot"⟩⟩ none (fun _ => false)).state) none (fun _ => false)).cmds
      = [Cmd.cryptCloseFull "/dev/mapper/cryptroot"] := by
  constructor
  · decide
  · rfl

/-- C5 amended: `close` never mutates the session state — in particular
the stored MappedDevice reference is not cleared — so after a close that
issued the close command, a subsequent close with no truthy argument finds
`self.mapdev` still recorded and issues the close command again with the
recorded mapping path, instead of taking the no-op branch. -/
theorem close_keeps_state_and_reissues :
    ∀ (self : luks2) (arg : Option String) (il : String → Bool) (d : MapperDev),
      (luks2.close self arg il).state = self
      ∧ (truthyS arg = false → self.mapdev = some d →
          (luks2.close self arg il).cmds = [Cmd.cryptCloseFull (MapperDev.path d)]
          ∧ (luks2.close self arg il).result = !(il (MapperDev.path d))) := by
  intro self arg il d
  constructor
  · unfold luks2.close
    dsimp only
    split <;> split <;> rfl
  · intro ha hd
    unfold luks2.close
    simp [ha, hd, mapperDev_path_truthy]

theorem close_keeps_state_and_reissues_witness :
    (luks2.close ⟨none, none, ⟨"/dev/sda1"⟩, "cryptroot", false, some ⟨"crypt"⟩⟩ none
        (fun _ => false)).state
      = ⟨none, none, ⟨"/dev/sda1"⟩, "cryptroot", false, some ⟨"crypt"⟩⟩
    ∧ ((luks2.close ⟨none, none, ⟨"/dev/sda1"⟩, "cryptroot", false, some ⟨"crypt"⟩⟩ none
        (fun _ => false)).cmds = [Cmd.cryptCloseFull (MapperDev.path ⟨"crypt"⟩)]
      ∧ (luks2.close ⟨none, none, ⟨"/dev/sda1"⟩, "cryptroot", false, some ⟨"crypt"⟩⟩ none
        (fun _ => false)).result = !((fun _ => false) (MapperDev.path ⟨"crypt"⟩))) :=
  ⟨(close_keeps_state_and_reissues _ none _ ⟨"crypt"⟩).1,
   (close_keeps_state_and_reissues _ none _ ⟨"crypt"⟩).2 rfl rfl⟩

/-- C8: when no mapping path is known — no truthy mountpoint argument and
no recorded MappedDevice — `close` returns `False` without raising and
without issuing any command; otherwise (a truthy argument, or a recorded
MappedDevice) it issues the single cryptsetup close command and returns
whether the mapping path is no longer a symbolic link. -/
theorem close_noop_or_issue :
    ∀ (self : luks2) (arg : Option String) (il : String → Bool),
      (truthyS arg = false → self.mapdev = none →
        luks2.close self arg il = ⟨false, [], self⟩)
      ∧ (∀ s, arg = some s → truthyS arg = true →
          luks2.close self arg il = ⟨!(il s), [Cmd.cryptCloseFull s], self⟩)
      ∧ (∀ d, truthyS arg = false → self.mapdev = some d →
          luks2.close self arg il
            = ⟨!(il (MapperDev.path d)), [Cmd.cryptCloseFull (MapperDev.path d)], self⟩) := by
  intro self arg il
  refine ⟨?_, ?_, ?_⟩
  · intro ha hd
    unfold luks2.close
    simp [ha, hd]
  · intro s hs ht
    subst hs
    unfold luks2.close
    simp [ht]
  · intro d ha hd
    unfold luks2.close
    simp [ha, hd, mapperDev_path_truthy]

theorem close_noop_or_issue_witness :
    luks2.close ⟨none, none, ⟨"/dev/sda1"⟩, "cryptroot", false, none⟩ none
        (fun _ => true)
      = ⟨false, [], ⟨none, none, ⟨"/dev/sda1"⟩, "cryptroot", false, none⟩⟩
    ∧ luks2.close ⟨none, none, ⟨"/dev/sda1"⟩, "cryptroot", false, none⟩ (some "m")
        (fun _ => true)
      = ⟨!((fun _ => true) "m"), [Cmd.cryptCloseFull "m"],
          ⟨none, none, ⟨"/dev/sda1"⟩, "cryptroot", false, none⟩⟩
    ∧ luks2.close ⟨none, none, ⟨"/dev/sda1"⟩, "cryptroot", false, some ⟨"crypt"⟩⟩ none
        (fun _ => true)
      = ⟨!((fun _ => true) (MapperDev.path ⟨"crypt"⟩)),
          [Cmd.cryptCloseFull (MapperDev.path ⟨"crypt"⟩)],
          ⟨none, none, ⟨"/dev/sda1"⟩, "cryptroot", false, some ⟨"crypt"⟩⟩⟩ :=
  ⟨(close_noop_or_issue _ none _).1 rfl rfl,
   (close_noop_or_issue _ (some "m") _).2.1 "m" rfl (by decide),
   (close_noop_or_issue _ none _).2.2 ⟨"crypt"⟩ rfl rfl⟩

/-- Recognizer for the recursive-unmount command of line 134 of luks.py. -/
def isUmountR : Cmd → Bool
  | Cmd.umountR _ => true
  | _ => false

/-- Recognizer for the per-child crypt-close command of line 138 of luks.py. -/
def isCryptClose : Cmd → Bool
  | Cmd.cryptClose _ => true
  | _ => false

/-- C9 counterexample: a recovery over a single child with no mountpoint.
The close commands actually issued (one, for that child) differ from what
the section 8 sentence of the claim predicts (none, the child being
skipped), so the claim that the per-child behavior matches both quoted
spec statements is false at this input. -/
theorem recovery_close_not_skipped_cex :
    childTeardownCmds ⟨"cryptX", none⟩ = [Cmd.cryptClose "cryptX"]
    ∧ ¬ ((recoveryCmds ⟨"/dev/sda1"⟩ [⟨"cryptX", none⟩]).filter isCryptClose
        = (([⟨"cryptX", none⟩] : List Child).filter (fun c => truthyS c.mountpoint)).map
            (fun c => Cmd.cryptClose c.name)) := by
  constructor
  · rfl
  · decide

theorem recovery_flatMap_filter_umount (children : List Child) :
    (children.flatMap childTeardownCmds).filter isUmountR
      = (children.filter (fun c => truthyS c.mountpoint)).map
          (fun c => Cmd.umountR (c.mountpoint.getD "")) := by
  induction children with
  | nil => rfl
  | cons c rest ih =>
    by_cases hm : truthyS c.mountpoint <;>
      simp [childTeardownCmds, hm, isUmountR, ih, List.filter_append]

theorem recovery_flatMap_filter_close (children : List Child) :
    (children.flatMap childTeardownCmds).filter isCryptClose
      = children.map (fun c => Cmd.cryptClose c.name) := by
  induction children with
  | nil => rfl
  | cons c rest ih =>
    by_cases hm : truthyS c.mountpoint <;>
      simp [childTeardownCmds, hm, isCryptClose, ih, List.filter_append]

/-- C9 amended: during busy-recovery, the recursive-unmount commands are
issued exactly for the children with a truthy mountpoint, and a crypt-close
command is issued unconditionally for every child — matching the section
4.2 sentence; the section 8 sentence (children without a mountpoint
skipped for close as well) does not hold of the code. -/
theorem recovery_unmount_filtered_close_unconditional :
    ∀ (p : Partition) (children : List Child),
      (recoveryCmds p children).filter isUmountR
        = (children.filter (fun c => truthyS c.mountpoint)).map
            (fun c => Cmd.umountR (c.mountpoint.getD ""))
      ∧ (recoveryCmds p children).filter isCryptClose
        = children.map (fun c => Cmd.cryptClose c.name) := by
  intro p children
  unfold recoveryCmds
  rw [List.filter_append, List.filter_append]
  constructor
  · rw [recovery_flatMap_filter_umount]
    rfl
  · rw [recovery_flatMap_filter_close]
    rfl

/-- C7: for every `unlock` call whose credential resolves, the outcome is
decided by the exit code and the mapper symlink check (lines 196 to 204 of
luks.py): a non-zero exit raises `DiskError` and never produces a
MappedDevice (state unchanged); a zero exit with the mapping path a
symbolic link records and returns the MappedDevice; a zero exit without
the link returns nothing, raising no error and leaving state unchanged. -/
theorem unlock_exit_code_outcomes :
    ∀ (self : luks2) (p : Partition) (mp : String) (pwArg : Option Bytes)
      (kfArg : Option String) (fs : String → Option Bytes) (il : String → Bool)
      (run : SubprocessRun) (pw : Bytes),
      resolveCredential pwArg self.password kfArg self.key_file fs = some pw →
      (run.exitCode ≠ 0 →
        (luks2.unlock self p mp pwArg kfArg fs il run).result
          = Except.error (LuksError.diskError p.path)
        ∧ (luks2.unlock self p mp pwArg kfArg fs il run).state = self)
      ∧ (run.exitCode = 0 → il (devMapperDir ++ mp) = true →
        (luks2.unlock self p mp pwArg kfArg fs il run).result = Except.ok (some ⟨mp⟩)
        ∧ (luks2.unlock self p mp pwArg kfArg fs il run).state
          = { self with mapdev := some ⟨mp⟩ })
      ∧ (run.exitCode = 0 → il (devMapperDir ++ mp) = false →
        (luks2.unlock self p mp pwArg kfArg fs il run).result = Except.ok none
        ∧ (luks2.unlock self p mp pwArg kfArg fs il run).state = self) := by
  intro self p mp pwArg kfArg fs il run pw hres
  unfold luks2.unlock
  rw [hres]
  refine ⟨?_, ?_, ?_⟩
  · intro he
    have hb : (run.exitCode == 0) = false := by simpa using he
    simp [hb]
  · intro he hl
    simp [he, hl]
  · intro he hl
    simp [he, hl]

/-- A concrete session used to instantiate `unlock_exit_code_outcomes`. -/
def unlockFixture : luks2 :=
  ⟨some [115], none, ⟨"/dev/sda1"⟩, "cryptroot", false, none⟩

theorem unlock_exit_code_outcomes_witness :
    ((luks2.unlock unlockFixture ⟨"/dev/sda1"⟩ "cryptroot" (some [115]) none
        (fun _ => none) (fun _ => true) ⟨[true], 1⟩).result
        = Except.error (LuksError.diskError "/dev/sda1")
      ∧ (luks2.unlock unlockFixture ⟨"/dev/sda1"⟩ "cryptroot" (some [115]) none
        (fun _ => none) (fun _ => true) ⟨[true], 1⟩).state = unlockFixture)
    ∧ ((luks2.unlock unlockFixture ⟨"/dev/sda1"⟩ "cryptroot" (some [115]) none
        (fun _ => none) (fun _ => true) ⟨[true], 0⟩).result
        = Except.ok (some ⟨"cryptroot"⟩)
      ∧ (luks2.unlock unlockFixture ⟨"/dev/sda1"⟩ "cryptroot" (some [115]) none
        (fun _ => none) (fun _ => true) ⟨[true], 0⟩).state
        = { unlockFixture with mapdev := some ⟨"cryptroot"⟩ })
    ∧ ((luks2.unlock unlockFixture ⟨"/dev/sda1"⟩ "cryptroot" (some [115]) none
        (fun _ => none) (fun _ => false) ⟨[true], 0⟩).result = Except.ok none
      ∧ (luks2.unlock unlockFixture ⟨"/dev/sda1"⟩ "cryptroot" (some [115]) none
        (fun _ => none) (fun _ => false) ⟨[true], 0⟩).state = unlockFixture) :=
  ⟨(unlock_exit_code_outcomes unlockFixture ⟨"/dev/sda1"⟩ "cryptroot" (some [115]) none
      (fun _ => none) (fun _ => true) ⟨[true], 1⟩ [115] rfl).1 (by decide),
   (unlock_exit_code_outcomes unlockFixture ⟨"/dev/sda1"⟩ "cryptroot" (some [115]) none
      (fun _ => none) (fun _ => true) ⟨[true], 0⟩ [115] rfl).2.1 rfl rfl,
   (unlock_exit_code_outcomes unlockFixture ⟨"/dev/sda1"⟩ "cryptroot" (some [115]) none
      (fun _ => none) (fun _ => false) ⟨[true], 0⟩ [115] rfl).2.2 rfl rfl⟩

theorem truthyB_none : truthyB none = false := rfl

theorem truthyB_some (bs : Bytes) : truthyB (some bs) = !bs.isEmpty := rfl

theorem truthyB_falsy_ne_empty (o : Option Bytes) (h : truthyB o = false)
    (hne : o ≠ some []) : o = none := by
  cases o with
  | none => rfl
  | some bs =>
    cases bs with
    | nil => exact absurd rfl hne
    | cons b rest => simp [truthyB] at h

/-- C6: the credential-resolution order shared by `encrypt` and `unlock`
(lines 70 to 86 and 166 to 182 of luks.py), for non-degenerate instance
passwords (`instPw` is not the empty byte string, which the truthiness
tests of the source treat as absent):

- a truthy explicit password argument wins over everything, key file
  included;
- otherwise a truthy instance-level password wins;
- otherwise the effective key file (explicit argument, else instance), if
  truthy and existing, is read and its trailing CR and LF bytes stripped;
- otherwise — no truthy password and no existing truthy key file — the
  missing-credential error is raised, and `encrypt` and `unlock` in that
  situation raise it without spawning any command. -/
theorem credential_resolution_order :
    ∀ (pwArg instPw : Option Bytes) (kfArg instKf : Option String)
      (fs : String → Option Bytes),
      instPw ≠ some [] →
      (truthyB pwArg = true →
        resolveCredential pwArg instPw kfArg instKf fs = pwArg)
      ∧ (truthyB pwArg = false → truthyB instPw = true →
        resolveCredential pwArg instPw kfArg instKf fs = instPw)
      ∧ (truthyB pwArg = false → truthyB instPw = false →
        ∀ k c, (if truthyS kfArg then kfArg else instKf) = some k →
          truthyS (some k) = true → fs k = some c →
          resolveCredential pwArg instPw kfArg instKf fs = some (rstripCRLF c))
      ∧ (truthyB pwArg = false → truthyB instPw = false →
        (truthyS (if truthyS kfArg then kfArg else instKf) = false
          ∨ ∃ k, (if truthyS kfArg then kfArg else instKf) = some k ∧ fs k = none) →
        resolveCredential pwArg instPw kfArg instKf fs = none
        ∧ ∀ (part : Partition) (mp : String) (auto : Bool) (md : Option MapperDev)
            (hashT : String) (ks it : Int) (beh : EncryptBehavior)
            (il : String → Bool) (run : SubprocessRun),
            luks2.encrypt ⟨instPw, instKf, part, mp, auto, md⟩ part pwArg kfArg
                hashT ks it fs beh
              = ⟨Except.error LuksError.missingCredential, [], 0,
                  ⟨instPw, instKf, part, mp, auto, md⟩⟩
            ∧ luks2.unlock ⟨instPw, instKf, part, mp, auto, md⟩ part mp pwArg kfArg
                fs il run
              = ⟨Except.error LuksError.missingCredential, [], 0,
                  ⟨instPw, instKf, part, mp, auto, md⟩⟩) := by
  intro pwArg instPw kfArg instKf fs hdeg
  refine ⟨?_, ?_, ?_, ?_⟩
  · intro hpw
    cases pwArg with
    | none => simp [truthyB] at hpw
    | some p => simp [resolveCredential, hpw]
  · intro hpw hip
    cases instPw with
    | none => simp [truthyB] at hip
    | some p => simp [resolveCredential, hpw, hip]
  · intro hpw hip k c hk hkt hfc
    have hinst : instPw = none := truthyB_falsy_ne_empty instPw hip hdeg
    subst hinst
    simp [resolveCredential, hpw, hk, hkt, truthyB_none, keyFileExists, hfc]
  · intro hpw hip hcase
    have hinst : instPw = none := truthyB_falsy_ne_empty instPw hip hdeg
    subst hinst
    have hres : resolveCredential pwArg none kfArg instKf fs = none := by
      rcases hcase with hfalsy | ⟨k, hk, hfk⟩
      · simp [resolveCredential, hpw, truthyB_none, hfalsy]
      · by_cases hkt : truthyS (some k) = true
        · simp [resolveCredential, hpw, hk, hkt, truthyB_none, keyFileExists, hfk]
        · have hkt2 : truthyS (some k) = false := by
            simpa using hkt
          simp [resolveCredential, hpw, hk, hkt2, truthyB_none]
    refine ⟨hres, ?_⟩
    intro part mp auto md hashT ks it beh il run
    constructor
    · unfold luks2.encrypt
      dsimp only
      rw [hres]
    · unfold luks2.unlock
      dsimp only
      rw [hres]

theorem credential_resolution_order_witness :
    resolveCredential (some [1]) none none none (fun _ => none) = some [1]
    ∧ resolveCredential none (some [2]) none none (fun _ => none) = some [2]
    ∧ resolveCredential none none (some "k") none (fun _ => some [5, 13, 10])
        = some (rstripCRLF [5, 13, 10])
    ∧ (resolveCredential none none none (some "m") (fun _ => none) = none
      ∧ (luks2.encrypt ⟨none, some "m", ⟨"/dev/sda1"⟩, "cryptroot", false, none⟩
          ⟨"/dev/sda1"⟩ none none "sha512" 512 10000 (fun _ => none)
          ⟨⟨[], 0⟩, [], ⟨[], 0⟩⟩
        = ⟨Except.error LuksError.missingCredential, [], 0,
            ⟨none, some "m", ⟨"/dev/sda1"⟩, "cryptroot", false, none⟩⟩
      ∧ luks2.unlock ⟨none, some "m", ⟨"/dev/sda1"⟩, "cryptroot", false, none⟩
          ⟨"/dev/sda1"⟩ "cryptroot" none none (fun _ => none) (fun _ => false) ⟨[], 0⟩
        = ⟨Except.error LuksError.missingCredential, [], 0,
            ⟨none, some "m", ⟨"/dev/sda1"⟩, "cryptroot", false, none⟩⟩)) :=
  ⟨(credential_resolution_order (some [1]) none none none (fun _ => none)
      (by decide)).1 rfl,
   (credential_resolution_order none (some [2]) none none (fun _ => none)
      (by decide)).2.1 rfl rfl,
   (credential_resolution_order none none (some "k") none (fun _ => some [5, 13, 10])
      (by decide)).2.2.1 rfl rfl "k" [5, 13, 10] (by decide) (by decide) rfl,
   ⟨((credential_resolution_order none none none (some "m") (fun _ => none)
      (by decide)).2.2.2 rfl rfl (Or.inr ⟨"m", by decide, rfl⟩)).1,
    ((credential_resolution_order none none none (some "m") (fun _ => none)
      (by decide)).2.2.2 rfl rfl (Or.inr ⟨"m", by decide, rfl⟩)).2
      ⟨"/dev/sda1"⟩ "cryptroot" false none "sha512" 512 10000
      ⟨⟨[], 0⟩, [], ⟨[], 0⟩⟩ (fun _ => false) ⟨[], 0⟩⟩⟩

theorem unlock_state_cases (self : luks2) (p : Partition) (mp : String)
    (pwArg : Option Bytes) (kfArg : Option String) (fs : String → Option Bytes)
    (il : String → Bool) (run : SubprocessRun) :
    (luks2.unlock self p mp pwArg kfArg fs il run).state = self
    ∨ (luks2.unlock self p mp pwArg kfArg fs il run).state
        = { self with mapdev := some ⟨mp⟩ } := by
  unfold luks2.unlock
  cases resolveCredential pwArg self.password kfArg self.key_file fs with
  | none => exact Or.inl rfl
  | some pw =>
    by_cases h1 : run.exitCode == 0 <;> by_cases h2 : il (devMapperDir ++ mp) <;>
      simp [h1, h2]

/-- C10: `encrypt` and `unlock` resolve the credential into local values
only and never mutate the stored session fields: `encrypt` returns the
state unchanged; `unlock` preserves `password`, `key_file`, `partition`,
`mountpoint` and `auto_unmount`, modifying at most `mapdev`; and the
context-manager entry is the one operation that overwrites the stored
password, with the resolved bytes (lines 42 to 47 of luks.py). -/
theorem encrypt_unlock_frame :
    ∀ (self : luks2) (p : Partition) (pwArg : Option Bytes) (kfArg : Option String)
      (hashT : String) (ks it : Int) (fs : String → Option Bytes)
      (beh : EncryptBehavior) (mp : String) (il : String → Bool) (run : SubprocessRun),
      (luks2.encrypt self p pwArg kfArg hashT ks it fs beh).state = self
      ∧ ((luks2.unlock self p mp pwArg kfArg fs il run).state.password = self.password
        ∧ (luks2.unlock self p mp pwArg kfArg fs il run).state.key_file = self.key_file
        ∧ (luks2.unlock self p mp pwArg kfArg fs il run).state.partition = self.partition
        ∧ (luks2.unlock self p mp pwArg kfArg fs il run).state.mountpoint = self.mountpoint
        ∧ (luks2.unlock self p mp pwArg kfArg fs il run).state.auto_unmount
            = self.auto_unmount)
      ∧ (luks2.enter self fs il run).state.password
          = (match enterResolve self fs with
            | none => self.password
            | some pw => some pw) := by
  intro self p pwArg kfArg hashT ks it fs beh mp il run
  refine ⟨?_, ?_, ?_⟩
  · unfold luks2.encrypt
    cases resolveCredential pwArg self.password kfArg self.key_file fs with
    | none => rfl
    | some pw =>
      by_cases h1 : beh.run1.exitCode == 256 <;> by_cases h2 : beh.run1.exitCode > 0 <;>
        simp [h1, h2]
  · rcases unlock_state_cases self p mp pwArg kfArg fs il run with h | h <;>
      simp [h]
  · unfold luks2.enter
    cases h : enterResolve self fs with
    | none => rfl
    | some pw =>
      rcases unlock_state_cases { self with password := some pw }
          ({ self with password := some pw } : luks2).partition
          ({ self with password := some pw } : luks2).mountpoint
          (some pw) none fs il run with h2 | h2 <;>
        simp [h2]
